import Mathlib

/-!
Verification of the request-cache dispatcher of the Ravan Fashion theme
(`src/assets/optimized/service-worker-optimized.js` and
`src/assets/ravan-fashion-service-worker.js`).

The service worker is shallowly embedded as pure Lean functions:
* an HTTP response is a record of status, URL, parsed `date` header and body;
* a named cache is an association list from request URL to stored response,
  where a `put` prepends (the newest entry shadows older ones, so lookups
  observe exactly the overwrite semantics of the browser Cache API);
* the cache storage maps cache names to caches the same way;
* the network is an association list from URL to the response `fetch`
  resolves with; a URL absent from it makes `fetch` reject;
* a strategy returns the value its promise settles with (`resolved v`,
  where `v = none` models resolving with `undefined`, or `rejected`),
  the cache storage after all started cache writes have landed, the list
  of URLs passed to `fetch`, and the sub-list of those fetches that were
  issued fire-and-forget (not awaited before responding).

Time is an integer count of milliseconds, as produced by `Date` arithmetic
in the source.
-/

namespace SW

/-- Substring test on character lists: `listHasInfix pat cs` is true when
`pat` occurs contiguously inside `cs`.  This models JavaScript
`String.prototype.includes`. -/
def listHasInfix (pat : List Char) : List Char → Bool
  | [] => pat.isEmpty
  | c :: cs => pat.isPrefixOf (c :: cs) || listHasInfix pat cs

/-- JavaScript `s.includes(pat)`. -/
def hasSubstr (s pat : String) : Bool :=
  listHasInfix pat.toList s.toList

/-- JavaScript `s.toLowerCase()` (character-wise lowering, which on the
ASCII URLs involved coincides with the JavaScript behaviour). -/
def lowerAscii (s : String) : String :=
  String.mk (s.toList.map Char.toLower)

/-- JavaScript `s.endsWith(pat)`. -/
def endsWithStr (s pat : String) : Bool :=
  List.isSuffixOf pat.toList s.toList

/-- JavaScript `s.startsWith(pat)`. -/
def startsWithStr (s pat : String) : Bool :=
  List.isPrefixOf pat.toList s.toList

/-- An HTTP response as the worker observes it: numeric status, the
response URL, the `date` header already parsed to a millisecond timestamp
(`none` when the header is absent), and the body text. -/
structure Response where
  status : Nat
  url : String
  date : Option Int
  body : String
deriving DecidableEq

/-- JavaScript `response.ok`: status in the range 200–299. -/
def Response.ok (r : Response) : Bool :=
  decide (200 ≤ r.status) && decide (r.status < 300)

/-- A request as the worker observes it: the full URL (the key used by
`cache.match` and `fetch`), the pathname and query parameter names the
browser's `URL` object derives from it, the request mode and the `accept`
header (`none` when absent). -/
structure Request where
  url : String
  pathname : String
  queryParams : List String
  mode : String
  accept : Option String
deriving DecidableEq

/-- A named cache: newest-first association list from request URL to the
stored response. -/
def Cache := List (String × Response)
deriving DecidableEq

/-- The cache storage (`caches`): association list from cache name to cache. -/
def CacheStorage := List (String × Cache)
deriving DecidableEq

/-- The network: `fetch u` resolves with `r` when `(u, r)` is listed and
rejects when `u` is absent. -/
def Network := List (String × Response)
deriving DecidableEq

/-- `fetch(request)` for a request with URL `url`. -/
def fetchUrl (net : Network) (url : String) : Option Response :=
  (List.find? (fun p => p.1 == url) net).map (fun p => p.2)

/-- `cache.match(request)`: the most recently stored response for the URL. -/
def cacheMatch (c : Cache) (url : String) : Option Response :=
  (List.find? (fun p => p.1 == url) c).map (fun p => p.2)

/-- `cache.put(request, response)`: the new entry shadows any older one. -/
def cachePut (c : Cache) (url : String) (r : Response) : Cache :=
  (url, r) :: c

/-- `caches.open(name)`: the cache stored under `name`, or a fresh empty
cache when none exists yet. -/
def openCache (s : CacheStorage) (name : String) : Cache :=
  ((List.find? (fun p => p.1 == name) s).map (fun p => p.2)).getD []

/-- Store a whole cache under a name (the browser mutates the named cache
in place; here the updated cache shadows the old binding). -/
def storageSet (s : CacheStorage) (name : String) (c : Cache) : CacheStorage :=
  (name, c) :: s

/-- Open a cache, put one entry, store it back. -/
def storagePut (s : CacheStorage) (name url : String) (r : Response) : CacheStorage :=
  storageSet s name (cachePut (openCache s name) url r)

/-- The response currently served for `url` out of the cache named `name`. -/
def lookupStorage (s : CacheStorage) (name url : String) : Option Response :=
  cacheMatch (openCache s name) url

/-- The value a strategy's promise settles with: `resolved none` models
resolving with `undefined`. -/
inductive JsOutcome where
  | resolved (value : Option Response)
  | rejected
deriving DecidableEq

/-- Result of running one fetch handler: the settled value, the cache
storage once every started cache write has landed, every URL passed to
`fetch`, and those fetches that were fire-and-forget (not awaited before
the handler responded). -/
structure FetchResult where
  response : JsOutcome
  storage : CacheStorage
  fetches : List String
  bgFetches : List String
deriving DecidableEq

/-! Constants of `service-worker-optimized.js`. -/

def STATIC_CACHE : String := "ravan-fashion-static-v1"
def IMAGES_CACHE : String := "ravan-fashion-images-v1"
def PAGES_CACHE : String := "ravan-fashion-pages-v1"
def API_CACHE : String := "ravan-fashion-api-v1"
def RUNTIME_CACHE : String := "ravan-fashion-runtime-v1"

/-- `Object.values(RAVAN_FASHION_CACHE)` in the optimized worker. -/
def currentCaches : List String :=
  [STATIC_CACHE, IMAGES_CACHE, PAGES_CACHE, API_CACHE, RUNTIME_CACHE]

def CACHE_EXPIRY_STATIC : Int := 7 * 24 * 60 * 60 * 1000
def CACHE_EXPIRY_IMAGES : Int := 30 * 24 * 60 * 60 * 1000
def CACHE_EXPIRY_PAGES : Int := 24 * 60 * 60 * 1000
def CACHE_EXPIRY_API : Int := 60 * 60 * 1000
def CACHE_EXPIRY_RUNTIME : Int := 60 * 60 * 1000

/-- `isCacheExpired(response)` of the optimized worker: no `date` header
means never expired; otherwise the age is compared against the expiry
selected by substring tests on the response URL. -/
def isCacheExpired (now : Int) (response : Response) : Bool :=
  match response.date with
  | none => false
  | some d =>
    let age := now - d
    if hasSubstr response.url "static" then decide (age > CACHE_EXPIRY_STATIC)
    else if hasSubstr response.url "images" then decide (age > CACHE_EXPIRY_IMAGES)
    else if hasSubstr response.url "pages" then decide (age > CACHE_EXPIRY_PAGES)
    else if hasSubstr response.url "api" then decide (age > CACHE_EXPIRY_API)
    else decide (age > CACHE_EXPIRY_RUNTIME)

/-- The generic offline `Response('Offline', {status: 503, ...})`. -/
def offlinePlain : Response :=
  { status := 503, url := "", date := none, body := "Offline" }

/-- `getOfflineResponse(request)`: navigation requests get whatever the
static cache holds for `/offline.html` (possibly `undefined`), every
other request gets the 503 placeholder. -/
def getOfflineResponse (storage : CacheStorage) (req : Request) : Option Response :=
  if req.mode == "navigate" then
    lookupStorage storage STATIC_CACHE "/offline.html"
  else
    some offlinePlain

/-- `updateCache(request, cacheName)`: background refresh; a rejected
fetch or a non-ok response is caught/ignored and leaves the storage
unchanged. -/
def updateCache (net : Network) (storage : CacheStorage) (req : Request)
    (cacheName : String) : CacheStorage :=
  match fetchUrl net req.url with
  | some network => if network.ok then storagePut storage cacheName req.url network else storage
  | none => storage

/-- `cacheFirst(request, cacheName)` of the optimized worker. -/
def cacheFirst (now : Int) (net : Network) (storage : CacheStorage) (req : Request)
    (cacheName : String) : FetchResult :=
  match cacheMatch (openCache storage cacheName) req.url with
  | some cached =>
    if isCacheExpired now cached then
      { response := .resolved (some cached),
        storage := updateCache net storage req cacheName,
        fetches := [req.url], bgFetches := [req.url] }
    else
      { response := .resolved (some cached), storage := storage,
        fetches := [], bgFetches := [] }
  | none =>
    match fetchUrl net req.url with
    | some network =>
      if network.ok then
        { response := .resolved (some network),
          storage := storagePut storage cacheName req.url network,
          fetches := [req.url], bgFetches := [] }
      else
        { response := .resolved (some network), storage := storage,
          fetches := [req.url], bgFetches := [] }
    | none =>
      { response := .resolved (getOfflineResponse storage req), storage := storage,
        fetches := [req.url], bgFetches := [] }

/-- `networkFirst(request, cacheName)` of the optimized worker. -/
def networkFirst (net : Network) (storage : CacheStorage) (req : Request)
    (cacheName : String) : FetchResult :=
  match fetchUrl net req.url with
  | some network =>
    if network.ok then
      { response := .resolved (some network),
        storage := storagePut storage cacheName req.url network,
        fetches := [req.url], bgFetches := [] }
    else
      { response := .resolved (some network), storage := storage,
        fetches := [req.url], bgFetches := [] }
  | none =>
    match cacheMatch (openCache storage cacheName) req.url with
    | some cached =>
      { response := .resolved (some cached), storage := storage,
        fetches := [req.url], bgFetches := [] }
    | none =>
      { response := .resolved (getOfflineResponse storage req), storage := storage,
        fetches := [req.url], bgFetches := [] }

/-- `staleWhileRevalidate(request, cacheName)` of the optimized worker.
The network fetch is always started; with a cache hit it is
fire-and-forget and the cached value is returned at once, otherwise its
outcome is awaited; a rejected fetch resolves to the previously captured
cached value (possibly `undefined`). -/
def staleWhileRevalidate (net : Network) (storage : CacheStorage) (req : Request)
    (cacheName : String) : FetchResult :=
  let cached := cacheMatch (openCache storage cacheName) req.url
  match fetchUrl net req.url with
  | some network =>
    let storage2 := if network.ok then storagePut storage cacheName req.url network else storage
    match cached with
    | some c =>
      { response := .resolved (some c), storage := storage2,
        fetches := [req.url], bgFetches := [req.url] }
    | none =>
      { response := .resolved (some network), storage := storage2,
        fetches := [req.url], bgFetches := [] }
  | none =>
    match cached with
    | some c =>
      { response := .resolved (some c), storage := storage,
        fetches := [req.url], bgFetches := [req.url] }
    | none =>
      { response := .resolved none, storage := storage,
        fetches := [req.url], bgFetches := [] }

def staticExtensions : List String := [".css", ".js", ".woff", ".woff2", ".ttf", ".eot"]

def imageExtensions : List String := [".jpg", ".jpeg", ".png", ".gif", ".webp", ".svg"]

/-- `isStaticAsset(request)`. -/
def isStaticAsset (req : Request) : Bool :=
  let p := lowerAscii req.pathname
  staticExtensions.any (fun ext => endsWithStr p ext) || hasSubstr p "assets/optimized/"

/-- `isImageRequest(request)`. -/
def isImageRequest (req : Request) : Bool :=
  let p := lowerAscii req.pathname
  imageExtensions.any (fun ext => endsWithStr p ext) ||
    req.queryParams.contains "width" || req.queryParams.contains "height"

/-- `isAPIRequest(request)`. -/
def isAPIRequest (req : Request) : Bool :=
  hasSubstr req.pathname "/api/" || hasSubstr req.pathname "/cart/" ||
    hasSubstr req.pathname "/search"

/-- `isPageRequest(request)`. -/
def isPageRequest (req : Request) : Bool :=
  req.mode == "navigate" ||
    (match req.accept with
     | some a => hasSubstr a "text/html"
     | none => false)

/-- The optimized worker's `fetch(event)` dispatcher: classify the request
and run the matching strategy on the matching named cache. -/
def handleFetch (now : Int) (net : Network) (storage : CacheStorage)
    (req : Request) : FetchResult :=
  if isStaticAsset req then cacheFirst now net storage req STATIC_CACHE
  else if isImageRequest req then cacheFirst now net storage req IMAGES_CACHE
  else if isAPIRequest req then networkFirst net storage req API_CACHE
  else if isPageRequest req then staleWhileRevalidate net storage req PAGES_CACHE
  else networkFirst net storage req RUNTIME_CACHE

/-! Precache and lifecycle (`service-worker-optimized.js`). -/

/-- `getPrecacheUrls()` of the optimized worker. -/
def precacheUrls : List String :=
  ["/assets/optimized/ravan-fashion-critical.css",
   "/assets/optimized/resource-loader-optimized.js",
   "/assets/optimized/image-loader-optimized.js",
   "https://fonts.gstatic.com/s/notosanstamil/v15/nEKhbZ7WJw0q8sY7zBm2m3q0uA.woff2",
   "/assets/placeholder.svg",
   "/offline.html"]

/-- Whether `cache.add(url)` would succeed: the fetch resolves with an ok
response (the Cache API rejects `add` on a non-ok response). -/
def fetchOk (net : Network) (url : String) : Bool :=
  match fetchUrl net url with
  | some r => r.ok
  | none => false

/-- Best-effort loop: `cache.add` each URL in order, swallowing individual
failures (a rejected fetch or a non-ok response stores nothing). -/
def addEach (net : Network) (cache : Cache) (urls : List String) : Cache :=
  urls.foldl
    (fun acc url =>
      match fetchUrl net url with
      | some r => if r.ok then cachePut acc url r else acc
      | none => acc)
    cache

/-- `cache.addAll(urls)`: atomic — succeeds, storing every URL's response,
exactly when every fetch resolves ok; otherwise it rejects having stored
nothing.  When it succeeds the stored entries coincide with the
best-effort loop, since no entry fails. -/
def cacheAddAll (net : Network) (cache : Cache) (urls : List String) : Option Cache :=
  if urls.all (fetchOk net) then some (addEach net cache urls) else none

/-- `precacheCriticalResources()`: try `addAll` of the whole manifest;
on failure fall back to adding each URL individually, tolerating per-URL
failure.  The returned storage is the state once installation completes
(it always completes). -/
def precacheCriticalResources (net : Network) (storage : CacheStorage) : CacheStorage :=
  let cache := openCache storage STATIC_CACHE
  match cacheAddAll net cache precacheUrls with
  | some c => storageSet storage STATIC_CACHE c
  | none => storageSet storage STATIC_CACHE (addEach net cache precacheUrls)

/-- `cleanupOldCaches()` of the optimized worker, as the list of cache
names it deletes out of the existing `cacheNames`. -/
def cleanupOldCaches (cacheNames : List String) : List String :=
  cacheNames.filter (fun cacheName => !(currentCaches.contains cacheName))

/-! Message/control interface (`service-worker-optimized.js`). -/

/-- The `data` object nested inside a control message, with its `url` and
`cacheName` fields each possibly absent. -/
structure MsgPayload where
  url : Option String
  cacheName : Option String
deriving DecidableEq

/-- The shape of `event.data` when it is an object: a possibly absent
`type` string and a possibly absent nested `data` object. -/
structure MessageData where
  type : Option String
  data : Option MsgPayload
deriving DecidableEq

/-- A message event: `data = none` models `event.data` being
null/undefined (destructuring it throws), and `hasPort` whether
`event.ports[0]` exists. -/
structure MessageEvent where
  data : Option MessageData
  hasPort : Bool
deriving DecidableEq

/-- `cacheUrl(url, cacheName)`: `cacheName` defaults to the static cache;
a missing `url` fetches the URL "undefined"; any failure is caught and
logged, and only an ok response is stored. -/
def cacheUrl (net : Network) (storage : CacheStorage) (url : Option String)
    (cacheName : Option String) : CacheStorage :=
  let name := cacheName.getD STATIC_CACHE
  let u := url.getD "undefined"
  match fetchUrl net u with
  | some r => if r.ok then storagePut storage name u r else storage
  | none => storage

/-- `clearCache(cacheName)`: `caches.delete` of the name (a missing name
deletes the cache named "undefined"); failures are caught. -/
def clearCache (storage : CacheStorage) (cacheName : Option String) : CacheStorage :=
  storage.filter (fun p => !(p.1 == cacheName.getD "undefined"))

/-- The optimized worker's `message(event)` handler.  `rejected` marks an
uncaught throw: destructuring a null `event.data`, reading `.url` or
`.cacheName` off a missing `data` object, or posting to a missing reply
port.  `SKIP_WAITING`, `SYNC_NOW`, `GET_CACHE_STATS` and the default
branch leave the storage unchanged. -/
def handleMessage (net : Network) (storage : CacheStorage) (ev : MessageEvent) :
    Except Unit CacheStorage :=
  match ev.data with
  | none => .error ()
  | some md =>
    match md.type with
    | some "SKIP_WAITING" => .ok storage
    | some "CACHE_URL" =>
      match md.data with
      | none => .error ()
      | some p => .ok (cacheUrl net storage p.url p.cacheName)
    | some "CLEAR_CACHE" =>
      match md.data with
      | none => .error ()
      | some p => .ok (clearCache storage p.cacheName)
    | some "GET_CACHE_STATS" =>
      if ev.hasPort then .ok storage else .error ()
    | some "SYNC_NOW" => .ok storage
    | _ => .ok storage

/-- The message types with a dedicated `case` in the handler's `switch`. -/
def knownMessageTypes : List String :=
  ["SKIP_WAITING", "CACHE_URL", "CLEAR_CACHE", "GET_CACHE_STATS", "SYNC_NOW"]

/-- Whether a message `type` value hits a dedicated `case` (a missing
type, like any unknown string, falls to `default`). -/
def isKnownMessageType : Option String → Bool
  | some t => knownMessageTypes.contains t
  | none => false

/-! The second worker, `ravan-fashion-service-worker.js`. -/

def RAVAN_MAIN_CACHE : String := "ravan-fashion-cache-v1"
def RAVAN_CRITICAL_CACHE : String := "ravan-fashion-critical-v1"
def RAVAN_IMAGE_CACHE : String := "ravan-fashion-images-v1"
def RAVAN_FONT_CACHE : String := "ravan-fashion-fonts-v1"

def CRITICAL_ASSETS : List String :=
  ["/assets/ravan-fashion-critical.css",
   "/assets/ravan-fashion-optimized.js",
   "/assets/section-cultural-spotlight.css",
   "/assets/section-cultural-product-details.css",
   "/assets/section-design-story.css",
   "https://fonts.googleapis.com/css2?family=Tamil+Sangam+MN&family=Noto+Sans+Tamil&display=swap"]

def CULTURAL_IMAGES : List String :=
  ["/files/kolam-pattern.svg", "/files/temple-arch.svg", "/files/silk-texture.jpg"]

/-- `cache.addAll` of no-cors requests: an opaque response is stored
whatever its status, so the call rejects only when some fetch rejects. -/
def cacheAddAllNoCors (net : Network) (cache : Cache) (urls : List String) : Option Cache :=
  if urls.all (fun u => (fetchUrl net u).isSome) then
    some (urls.foldl
      (fun acc u =>
        match fetchUrl net u with
        | some r => cachePut acc u r
        | none => acc)
      cache)
  else none

/-- The ravan worker's install handler: `Promise.all` of a bare `addAll`
of the critical assets and a bare `addAll` of the cultural images (as
no-cors requests), with no catch — `none` means the install promise
rejects and installation fails. -/
def ravanInstall (net : Network) (storage : CacheStorage) : Option CacheStorage :=
  match cacheAddAll net (openCache storage RAVAN_CRITICAL_CACHE) CRITICAL_ASSETS with
  | none => none
  | some c1 =>
    let storage1 := storageSet storage RAVAN_CRITICAL_CACHE c1
    match cacheAddAllNoCors net (openCache storage1 RAVAN_IMAGE_CACHE) CULTURAL_IMAGES with
    | none => none
    | some c2 => some (storageSet storage1 RAVAN_IMAGE_CACHE c2)

/-- The ravan worker's activate handler, as the list of cache names it
deletes: those starting with "ravan-fashion-" and not ending in "-v1". -/
def ravanActivateDeleted (cacheNames : List String) : List String :=
  cacheNames.filter (fun cacheName =>
    startsWithStr cacheName "ravan-fashion-" && !(endsWithStr cacheName "-v1"))

/-- Background revalidation in `handleAssetRequest`/`handleImageRequest`:
`fetch(request).then(r => { if (r.ok) cache.put(...) })` with no catch;
only an ok response is stored. -/
def ravanBackgroundUpdate (net : Network) (storage : CacheStorage) (cacheName url : String) :
    CacheStorage :=
  match fetchUrl net url with
  | some r => if r.ok then storagePut storage cacheName url r else storage
  | none => storage

/-- `handleAssetRequest(request)` of the ravan worker.  A cached entry is
fresh when its age is under 24 hours (`new Date(null)` of a missing date
header is the epoch, making the entry maximally old; the source computes
`age` in fractional hours and tests `age < 24`, equivalent to the
millisecond comparison used here).  On a cache miss the network response
is returned (cached only when ok); when the fetch rejects, CSS requests
fall back to the precached critical CSS and every other request
re-throws the error. -/
def handleAssetRequest (now : Int) (net : Network) (storage : CacheStorage)
    (req : Request) : FetchResult :=
  match cacheMatch (openCache storage RAVAN_MAIN_CACHE) req.url with
  | some cached =>
    let cachedDate : Int := cached.date.getD 0
    if now - cachedDate < 24 * 60 * 60 * 1000 then
      { response := .resolved (some cached), storage := storage,
        fetches := [], bgFetches := [] }
    else
      { response := .resolved (some cached),
        storage := ravanBackgroundUpdate net storage RAVAN_MAIN_CACHE req.url,
        fetches := [req.url], bgFetches := [req.url] }
  | none =>
    match fetchUrl net req.url with
    | some network =>
      if network.ok then
        { response := .resolved (some network),
          storage := storagePut storage RAVAN_MAIN_CACHE req.url network,
          fetches := [req.url], bgFetches := [] }
      else
        { response := .resolved (some network), storage := storage,
          fetches := [req.url], bgFetches := [] }
    | none =>
      if hasSubstr req.url ".css" then
        { response := .resolved
            (lookupStorage storage RAVAN_CRITICAL_CACHE "/assets/ravan-fashion-critical.css"),
          storage := storage, fetches := [req.url], bgFetches := [] }
      else
        { response := .rejected, storage := storage,
          fetches := [req.url], bgFetches := [] }

/-! Basic lemmas about the cache model. -/

theorem cacheMatch_cachePut_self (c : Cache) (u : String) (r : Response) :
    cacheMatch (cachePut c u r) u = some r := by
  unfold cacheMatch cachePut
  rw [List.find?_cons_of_pos]
  · rfl
  · exact beq_self_eq_true u

theorem cacheMatch_cachePut_ne (c : Cache) (u u' : String) (r : Response)
    (h : u' ≠ u) : cacheMatch (cachePut c u r) u' = cacheMatch c u' := by
  unfold cacheMatch cachePut
  rw [List.find?_cons_of_neg]
  intro hc
  exact h (beq_iff_eq.mp hc).symm

theorem openCache_storageSet_self (s : CacheStorage) (n : String) (c : Cache) :
    openCache (storageSet s n c) n = c := by
  unfold openCache storageSet
  rw [List.find?_cons_of_pos]
  · rfl
  · exact beq_self_eq_true n

theorem openCache_storageSet_ne (s : CacheStorage) (n n' : String) (c : Cache)
    (h : n' ≠ n) : openCache (storageSet s n c) n' = openCache s n' := by
  unfold openCache storageSet
  rw [List.find?_cons_of_neg]
  intro hc
  exact h (beq_iff_eq.mp hc).symm

theorem lookupStorage_storagePut_self (s : CacheStorage) (n u : String) (r : Response) :
    lookupStorage (storagePut s n u r) n u = some r := by
  unfold lookupStorage storagePut
  rw [openCache_storageSet_self]
  exact cacheMatch_cachePut_self _ u r

theorem lookupStorage_storagePut_cases (s : CacheStorage) (n0 u0 : String) (r0 : Response)
    (n u : String) (r : Response)
    (h : lookupStorage (storagePut s n0 u0 r0) n u = some r) :
    lookupStorage s n u = some r ∨ r = r0 := by
  unfold lookupStorage storagePut at h
  by_cases hn : n = n0
  · subst hn
    rw [openCache_storageSet_self] at h
    by_cases hu : u = u0
    · subst hu
      rw [cacheMatch_cachePut_self] at h
      exact Or.inr (Option.some_injective _ h).symm
    · rw [cacheMatch_cachePut_ne _ _ _ _ hu] at h
      exact Or.inl h
  · rw [openCache_storageSet_ne _ _ _ _ hn] at h
    exact Or.inl h

/-! Concrete inputs used by counterexamples and witnesses. -/

/-- A 200 response for a URL, with no date header. -/
def mkOk (u : String) : Response := { status := 200, url := u, date := none, body := "" }

/-- A cached stylesheet response: static resource class, 2 hours old at
time 7200000. -/
def cssResp : Response :=
  { status := 200, url := "/assets/app.css", date := some 0, body := "body{}" }

/-- The request for that stylesheet. -/
def reqAppCss : Request :=
  { url := "/assets/app.css", pathname := "/assets/app.css", queryParams := [],
    mode := "no-cors", accept := none }

/-- Storage with the stylesheet cached in the static cache. -/
def storageCss : CacheStorage := [(STATIC_CACHE, [("/assets/app.css", cssResp)])]

/-- An API response whose URL contains "api". -/
def apiRespW : Response := { status := 200, url := "/api/cart", date := some 0, body := "" }

/-! C2 — cache-first on a cache hit. -/

/-- C2 counterexample: the request for `/assets/app.css` is a static-class
request and its cached entry is 2 hours old — far below the static class's
7-day expiry — yet `cacheFirst` issues a network fetch, because
`isCacheExpired` matches the entry against the 1-hour RUNTIME expiry (its
URL contains none of the substrings "static", "images", "pages", "api").
This refutes "if the entry's age is below its class expiry, no network
call occurs at all". -/
theorem cacheFirst_fetches_despite_fresh_class :
    isStaticAsset reqAppCss = true ∧
    lookupStorage storageCss STATIC_CACHE reqAppCss.url = some cssResp ∧
    cssResp.date = some 0 ∧
    (7200000 : Int) - 0 < CACHE_EXPIRY_STATIC ∧
    (cacheFirst 7200000 [] storageCss reqAppCss STATIC_CACHE).fetches = [reqAppCss.url] := by
  decide

/-- C2 (amended): for every cache-first request that hits the cache, the
cached response itself is returned; when `isCacheExpired` is false for the
entry (the freshness test the code actually runs, keyed on URL substrings
rather than the request's resource class) no fetch is issued and the
storage is untouched; when it is true, the stale value is still returned
and exactly one fire-and-forget background fetch is issued. -/
theorem cacheFirst_hit_spec (now : Int) (net : Network) (storage : CacheStorage)
    (req : Request) (cacheName : String) (c : Response)
    (h : lookupStorage storage cacheName req.url = some c) :
    (cacheFirst now net storage req cacheName).response = JsOutcome.resolved (some c) ∧
    (isCacheExpired now c = false →
      (cacheFirst now net storage req cacheName).fetches = [] ∧
      (cacheFirst now net storage req cacheName).bgFetches = [] ∧
      (cacheFirst now net storage req cacheName).storage = storage) ∧
    (isCacheExpired now c = true →
      (cacheFirst now net storage req cacheName).fetches = [req.url] ∧
      (cacheFirst now net storage req cacheName).bgFetches = [req.url]) := by
  unfold lookupStorage at h
  unfold cacheFirst
  rw [h]
  by_cases hexp : isCacheExpired now c = true
  · simp [hexp]
  · simp [hexp]

/-- Witness for the amended C2 at a concrete fresh hit: a cached entry
with no date header is never expired, so the hit is served with no fetch. -/
theorem cacheFirst_hit_spec_witness :
    (cacheFirst 0 [] [(STATIC_CACHE, [("/a.css", mkOk "/a.css")])]
        { url := "/a.css", pathname := "/a.css", queryParams := [],
          mode := "no-cors", accept := none } STATIC_CACHE).response
      = JsOutcome.resolved (some (mkOk "/a.css")) ∧
    (cacheFirst 0 [] [(STATIC_CACHE, [("/a.css", mkOk "/a.css")])]
        { url := "/a.css", pathname := "/a.css", queryParams := [],
          mode := "no-cors", accept := none } STATIC_CACHE).fetches = [] := by
  have h := cacheFirst_hit_spec 0 [] [(STATIC_CACHE, [("/a.css", mkOk "/a.css")])]
    { url := "/a.css", pathname := "/a.css", queryParams := [],
      mode := "no-cors", accept := none } STATIC_CACHE (mkOk "/a.css") (by decide)
  exact ⟨h.1, (h.2.1 (by decide)).1⟩

/-! C3 — what decides staleness. -/

/-- C3 counterexample: the spec's own example entry, a static-class
stylesheet at `/assets/app.css`, aged 2 hours (well under the 7-day static
expiry), is nonetheless classified expired, because `isCacheExpired`
selects the expiry by URL substring and this URL matches none of
"static"/"images"/"pages"/"api", falling to the 1-hour RUNTIME duration. -/
theorem isCacheExpired_ignores_resource_class :
    isStaticAsset reqAppCss = true ∧
    cssResp.url = reqAppCss.url ∧
    cssResp.date = some 0 ∧
    (7200000 : Int) - 0 < CACHE_EXPIRY_STATIC ∧
    isCacheExpired 7200000 cssResp = true := by
  decide

/-- C3 (amended): staleness is decided by substring matching on the cached
response's URL, not by the request's resource class: a URL containing
"static" is stale past 7 days, otherwise one containing "images" past 30
days, otherwise "pages" past 24 hours, otherwise "api" past 1 hour, and
any other URL past 1 hour (RUNTIME); an entry without a date header is
never stale.  In each case the entry is stale exactly when its age
strictly exceeds the selected duration. -/
theorem isCacheExpired_url_substring_spec (now : Int) (r : Response) :
    (r.date = none → isCacheExpired now r = false) ∧
    (∀ d, r.date = some d →
      (hasSubstr r.url "static" = true →
        (isCacheExpired now r = true ↔ now - d > CACHE_EXPIRY_STATIC)) ∧
      (hasSubstr r.url "static" = false → hasSubstr r.url "images" = true →
        (isCacheExpired now r = true ↔ now - d > CACHE_EXPIRY_IMAGES)) ∧
      (hasSubstr r.url "static" = false → hasSubstr r.url "images" = false →
        hasSubstr r.url "pages" = true →
        (isCacheExpired now r = true ↔ now - d > CACHE_EXPIRY_PAGES)) ∧
      (hasSubstr r.url "static" = false → hasSubstr r.url "images" = false →
        hasSubstr r.url "pages" = false → hasSubstr r.url "api" = true →
        (isCacheExpired now r = true ↔ now - d > CACHE_EXPIRY_API)) ∧
      (hasSubstr r.url "static" = false → hasSubstr r.url "images" = false →
        hasSubstr r.url "pages" = false → hasSubstr r.url "api" = false →
        (isCacheExpired now r = true ↔ now - d > CACHE_EXPIRY_RUNTIME))) := by
  constructor
  · intro h
    simp [isCacheExpired, h]
  · intro d hd
    refine ⟨?_, ?_, ?_, ?_, ?_⟩ <;> intros <;> simp_all [isCacheExpired]

/-- Witness for the amended C3: a response whose URL contains "api" and
whose age is just over one hour is expired. -/
theorem isCacheExpired_url_substring_spec_witness :
    isCacheExpired 3600001 apiRespW = true := by
  have h := (isCacheExpired_url_substring_spec 3600001 apiRespW).2 0 (by decide)
  exact (h.2.2.2.1 (by decide) (by decide) (by decide) (by decide)).mpr (by decide)

/-! C9 — entries without a date header. -/

/-- C9: a cached response carrying no date header is never classified
expired, so a cache-first hit on it is served as fresh forever: the cached
response is returned, no fetch (foreground or background) is issued, and
the storage is left untouched. -/
theorem cacheFirst_noDate_served_fresh (now : Int) (net : Network) (storage : CacheStorage)
    (req : Request) (cacheName : String) (c : Response)
    (h : lookupStorage storage cacheName req.url = some c) (hd : c.date = none) :
    isCacheExpired now c = false ∧
    (cacheFirst now net storage req cacheName).response = JsOutcome.resolved (some c) ∧
    (cacheFirst now net storage req cacheName).fetches = [] ∧
    (cacheFirst now net storage req cacheName).bgFetches = [] ∧
    (cacheFirst now net storage req cacheName).storage = storage := by
  have hexp : isCacheExpired now c = false := by simp [isCacheExpired, hd]
  unfold lookupStorage at h
  unfold cacheFirst
  rw [h]
  simp [hexp]

/-- Witness for C9 at a concrete date-less image entry. -/
theorem cacheFirst_noDate_served_fresh_witness :
    isCacheExpired 99999999999 (mkOk "/files/a.png") = false ∧
    (cacheFirst 99999999999 [] [(IMAGES_CACHE, [("/files/a.png", mkOk "/files/a.png")])]
        { url := "/files/a.png", pathname := "/files/a.png", queryParams := [],
          mode := "no-cors", accept := none } IMAGES_CACHE).fetches = [] := by
  have h := cacheFirst_noDate_served_fresh 99999999999 []
    [(IMAGES_CACHE, [("/files/a.png", mkOk "/files/a.png")])]
    { url := "/files/a.png", pathname := "/files/a.png", queryParams := [],
      mode := "no-cors", accept := none } IMAGES_CACHE (mkOk "/files/a.png")
    (by decide) (by decide)
  exact ⟨h.1, h.2.2.1⟩

/-! C1 — the fetch dispatcher never rejects (optimized worker), but the
ravan worker's asset handler does. -/

theorem cacheFirst_resolves (now : Int) (net : Network) (storage : CacheStorage)
    (req : Request) (cacheName : String) :
    ∃ v, (cacheFirst now net storage req cacheName).response = JsOutcome.resolved v := by
  unfold cacheFirst
  rcases cacheMatch (openCache storage cacheName) req.url with _ | c
  · rcases fetchUrl net req.url with _ | network
    · exact ⟨_, rfl⟩
    · by_cases h : network.ok = true <;> simp [h]
  · by_cases h : isCacheExpired now c = true <;> simp [h]

theorem networkFirst_resolves (net : Network) (storage : CacheStorage)
    (req : Request) (cacheName : String) :
    ∃ v, (networkFirst net storage req cacheName).response = JsOutcome.resolved v := by
  unfold networkFirst
  rcases fetchUrl net req.url with _ | network
  · rcases cacheMatch (openCache storage cacheName) req.url with _ | c
    · exact ⟨_, rfl⟩
    · exact ⟨_, rfl⟩
  · by_cases h : network.ok = true <;> simp [h]

theorem staleWhileRevalidate_resolves (net : Network) (storage : CacheStorage)
    (req : Request) (cacheName : String) :
    ∃ v, (staleWhileRevalidate net storage req cacheName).response = JsOutcome.resolved v := by
  unfold staleWhileRevalidate
  rcases fetchUrl net req.url with _ | network
  · rcases cacheMatch (openCache storage cacheName) req.url with _ | c
    · exact ⟨_, rfl⟩
    · exact ⟨_, rfl⟩
  · rcases cacheMatch (openCache storage cacheName) req.url with _ | c
    · exact ⟨_, rfl⟩
    · exact ⟨_, rfl⟩

/-- The request the C1 counterexample sends to the ravan worker's asset
handler (its URL contains "/assets/", so the worker's fetch listener does
route it there). -/
def reqAppJs : Request :=
  { url := "/assets/app.js", pathname := "/assets/app.js", queryParams := [],
    mode := "no-cors", accept := none }

/-- C1 counterexample: in `ravan-fashion-service-worker.js`, an asset
request for a non-CSS file with no cache entry and a failing network makes
`handleAssetRequest` re-throw the fetch error, so the handler's promise
rejects at top level instead of resolving to a response. -/
theorem handleAssetRequest_rejects :
    hasSubstr reqAppJs.url "/assets/" = true ∧
    (handleAssetRequest 0 [] [] reqAppJs).response = JsOutcome.rejected := by
  decide

/-- C1 (amended): in the optimized worker every classified request, of
every resource class, resolves — the dispatcher never rejects or throws at
top level (it may, however, resolve to `undefined` rather than a response
object when cache, network and offline fallback all miss); the
ravan-fashion worker's handlers do not share this guarantee. -/
theorem handleFetch_always_resolves (now : Int) (net : Network) (storage : CacheStorage)
    (req : Request) :
    ∃ v, (handleFetch now net storage req).response = JsOutcome.resolved v := by
  unfold handleFetch
  by_cases h1 : isStaticAsset req = true
  · simpa [h1] using cacheFirst_resolves now net storage req STATIC_CACHE
  · by_cases h2 : isImageRequest req = true
    · simpa [h1, h2] using cacheFirst_resolves now net storage req IMAGES_CACHE
    · by_cases h3 : isAPIRequest req = true
      · simpa [h1, h2, h3] using networkFirst_resolves net storage req API_CACHE
      · by_cases h4 : isPageRequest req = true
        · simpa [h1, h2, h3, h4] using staleWhileRevalidate_resolves net storage req PAGES_CACHE
        · simpa [h1, h2, h3, h4] using networkFirst_resolves net storage req RUNTIME_CACHE

/-! C4 — network-first failure handling. -/

/-- A non-2xx network response for the API endpoint. -/
def r500 : Response := { status := 500, url := "/api/cart", date := none, body := "err" }

/-- An older cached API response. -/
def rOldApi : Response := { status := 200, url := "/api/cart", date := some 0, body := "cart" }

/-- The API request. -/
def reqApi : Request :=
  { url := "/api/cart", pathname := "/api/cart", queryParams := [],
    mode := "cors", accept := none }

/-- Storage with the old API response cached. -/
def stApi : CacheStorage := [(API_CACHE, [("/api/cart", rOldApi)])]

/-- C4 counterexample: under network-first, a non-2xx network response is
NOT recovered by falling back to the cache — the 500 response itself is
returned even though a cached entry exists. -/
theorem networkFirst_returns_non2xx_despite_cache :
    r500.ok = false ∧
    lookupStorage stApi API_CACHE reqApi.url = some rOldApi ∧
    (networkFirst [("/api/cart", r500)] stApi reqApi API_CACHE).response
      = JsOutcome.resolved (some r500) ∧
    r500 ≠ rOldApi := by
  decide

/-- C4 (amended): under network-first only a rejected fetch falls back to
the cache: on rejection with a cache hit the cached entry is returned and
the storage is untouched; on rejection with a cache miss the offline
placeholder is returned — the 503 `offlinePlain` (itself non-2xx) for
non-navigation requests, and whatever the static cache holds for
`/offline.html` for navigation requests.  A fetched non-2xx response is
returned to the caller as-is, with no cache fallback and no cache write. -/
theorem networkFirst_failure_spec (net : Network) (storage : CacheStorage)
    (req : Request) (cacheName : String) :
    (∀ c, fetchUrl net req.url = none →
      lookupStorage storage cacheName req.url = some c →
      (networkFirst net storage req cacheName).response = JsOutcome.resolved (some c) ∧
      (networkFirst net storage req cacheName).storage = storage) ∧
    (fetchUrl net req.url = none →
      lookupStorage storage cacheName req.url = none →
      (networkFirst net storage req cacheName).response
        = JsOutcome.resolved (getOfflineResponse storage req) ∧
      (req.mode ≠ "navigate" →
        (networkFirst net storage req cacheName).response
          = JsOutcome.resolved (some offlinePlain) ∧ offlinePlain.ok = false)) ∧
    (∀ r, fetchUrl net req.url = some r → r.ok = false →
      (networkFirst net storage req cacheName).response = JsOutcome.resolved (some r) ∧
      (networkFirst net storage req cacheName).storage = storage) := by
  refine ⟨?_, ?_, ?_⟩
  · intro c hf hc
    unfold lookupStorage at hc
    unfold networkFirst
    rw [hf, hc]
    exact ⟨rfl, rfl⟩
  · intro hf hc
    unfold lookupStorage at hc
    unfold networkFirst
    rw [hf, hc]
    refine ⟨rfl, ?_⟩
    intro hmode
    have hm : (req.mode == "navigate") = false := beq_eq_false_iff_ne.mpr hmode
    constructor
    · simp [getOfflineResponse, hm]
    · decide
  · intro r hf hok
    constructor
    · simp [networkFirst, hf, hok]
    · simp [networkFirst, hf, hok]

/-- Witness for the amended C4: with the network down and a cached entry,
the cached entry is returned. -/
theorem networkFirst_failure_spec_witness :
    (networkFirst [] stApi reqApi API_CACHE).response = JsOutcome.resolved (some rOldApi) :=
  ((networkFirst_failure_spec [] stApi reqApi API_CACHE).1 rOldApi (by decide) (by decide)).1

/-! C5 — stale-while-revalidate with a cache hit. -/

/-- C5: under stale-while-revalidate with a cached entry, the cached value
is returned (the network fetch is issued fire-and-forget, not awaited);
when the background fetch resolves ok the cache entry is updated to the
network value afterward; when the background fetch rejects, the failure is
swallowed — the caller still gets the cached value and the storage is
untouched. -/
theorem staleWhileRevalidate_cached_spec (net : Network) (storage : CacheStorage)
    (req : Request) (cacheName : String) (c : Response)
    (h : lookupStorage storage cacheName req.url = some c) :
    (staleWhileRevalidate net storage req cacheName).response = JsOutcome.resolved (some c) ∧
    (staleWhileRevalidate net storage req cacheName).bgFetches = [req.url] ∧
    (∀ r, fetchUrl net req.url = some r → r.ok = true →
      lookupStorage (staleWhileRevalidate net storage req cacheName).storage
        cacheName req.url = some r) ∧
    (fetchUrl net req.url = none →
      (staleWhileRevalidate net storage req cacheName).storage = storage) := by
  unfold lookupStorage at h
  rcases hf : fetchUrl net req.url with _ | network
  · refine ⟨?_, ?_, ?_, ?_⟩
    · simp [staleWhileRevalidate, hf, h]
    · simp [staleWhileRevalidate, hf, h]
    · intro r hr _
      cases hr
    · intro _
      simp [staleWhileRevalidate, hf, h]
  · by_cases hok : network.ok = true
    · refine ⟨?_, ?_, ?_, ?_⟩
      · simp [staleWhileRevalidate, hf, h, hok]
      · simp [staleWhileRevalidate, hf, h, hok]
      · intro r hr _
        have he : network = r := Option.some_injective _ hr
        subst he
        simp [staleWhileRevalidate, hf, h, hok, lookupStorage_storagePut_self]
      · intro hn
        cases hn
    · refine ⟨?_, ?_, ?_, ?_⟩
      · simp [staleWhileRevalidate, hf, h, hok]
      · simp [staleWhileRevalidate, hf, h, hok]
      · intro r hr hrok
        have he : network = r := Option.some_injective _ hr
        subst he
        exact absurd hrok hok
      · intro hn
        cases hn

/-- Witness for C5: cached page plus a successful network refresh — the
cached value is returned and the cache then holds the network value. -/
theorem staleWhileRevalidate_cached_spec_witness :
    (staleWhileRevalidate [("/p", { status := 200, url := "/p", date := some 5, body := "new" })]
        [(PAGES_CACHE, [("/p", { status := 200, url := "/p", date := some 0, body := "old" })])]
        { url := "/p", pathname := "/p", queryParams := [], mode := "navigate",
          accept := some "text/html" } PAGES_CACHE).response
      = JsOutcome.resolved (some { status := 200, url := "/p", date := some 0, body := "old" }) ∧
    lookupStorage
      (staleWhileRevalidate [("/p", { status := 200, url := "/p", date := some 5, body := "new" })]
        [(PAGES_CACHE, [("/p", { status := 200, url := "/p", date := some 0, body := "old" })])]
        { url := "/p", pathname := "/p", queryParams := [], mode := "navigate",
          accept := some "text/html" } PAGES_CACHE).storage PAGES_CACHE "/p"
      = some { status := 200, url := "/p", date := some 5, body := "new" } := by
  have h := staleWhileRevalidate_cached_spec
    [("/p", { status := 200, url := "/p", date := some 5, body := "new" })]
    [(PAGES_CACHE, [("/p", { status := 200, url := "/p", date := some 0, body := "old" })])]
    { url := "/p", pathname := "/p", queryParams := [], mode := "navigate",
      accept := some "text/html" } PAGES_CACHE
    { status := 200, url := "/p", date := some 0, body := "old" } (by decide)
  exact ⟨h.1, h.2.2.1 _ (by decide) (by decide)⟩

/-! C6 — what activation deletes. -/

/-- C6 counterexample: deletion is not "iff the name does not match the
current version tag".  The optimized worker deletes
"ravan-fashion-extra-v1" although it carries the current `-v1` tag (it is
merely outside the hard-coded five-name set), and the ravan worker
preserves "other-cache-v0" although it matches no current version tag (it
lacks the "ravan-fashion-" namespace the filter requires). -/
theorem activation_not_by_version_tag :
    endsWithStr "ravan-fashion-extra-v1" "-v1" = true ∧
    cleanupOldCaches ["ravan-fashion-extra-v1"] = ["ravan-fashion-extra-v1"] ∧
    endsWithStr "other-cache-v0" "-v1" = false ∧
    currentCaches.contains "other-cache-v0" = false ∧
    ravanActivateDeleted ["other-cache-v0"] = [] := by
  decide

/-- C6 (amended): the optimized worker's activation deletes exactly the
existing names outside its hard-coded expected set (`currentCaches`), and
the ravan worker's activation deletes exactly the existing names that
start with "ravan-fashion-" and do not end with "-v1"; consequently, in
both workers no cache of the active deployment (a member of the expected
set, resp. a name ending in the current "-v1" tag) is ever destroyed by
its own activation. -/
theorem activation_deletes_spec (cacheNames : List String) (n : String) :
    (n ∈ cleanupOldCaches cacheNames ↔
      n ∈ cacheNames ∧ currentCaches.contains n = false) ∧
    (n ∈ ravanActivateDeleted cacheNames ↔
      n ∈ cacheNames ∧ startsWithStr n "ravan-fashion-" = true ∧
        endsWithStr n "-v1" = false) ∧
    (currentCaches.contains n = true → n ∉ cleanupOldCaches cacheNames) ∧
    (endsWithStr n "-v1" = true → n ∉ ravanActivateDeleted cacheNames) := by
  refine ⟨?_, ?_, ?_, ?_⟩
  · simp [cleanupOldCaches, List.mem_filter]
  · simp [ravanActivateDeleted, List.mem_filter, Bool.and_eq_true, and_assoc]
  · intro h hmem
    rw [cleanupOldCaches, List.mem_filter] at hmem
    rw [h] at hmem
    simp at hmem
  · intro h hmem
    rw [ravanActivateDeleted, List.mem_filter] at hmem
    rw [h] at hmem
    simp at hmem

/-- Witness for the amended C6: the static cache survives the optimized
cleanup even among stale names, and the images cache survives the ravan
cleanup. -/
theorem activation_deletes_spec_witness :
    STATIC_CACHE ∉ cleanupOldCaches [STATIC_CACHE, "ravan-fashion-static-v0"] ∧
    RAVAN_IMAGE_CACHE ∉ ravanActivateDeleted [RAVAN_IMAGE_CACHE] :=
  ⟨(activation_deletes_spec [STATIC_CACHE, "ravan-fashion-static-v0"] STATIC_CACHE).2.2.1
      (by decide),
   (activation_deletes_spec [RAVAN_IMAGE_CACHE] RAVAN_IMAGE_CACHE).2.2.2 (by decide)⟩

/-! C7 — precache failure tolerance. -/

theorem addEach_cons (net : Network) (cache : Cache) (u : String) (us : List String) :
    addEach net cache (u :: us) =
      addEach net
        (match fetchUrl net u with
         | some r => if r.ok then cachePut cache u r else cache
         | none => cache) us := rfl

theorem addEach_mem_lookup (net : Network) (urls : List String) (cache : Cache)
    (url : String) (r : Response) (hf : fetchUrl net url = some r) (hok : r.ok = true)
    (h : cacheMatch cache url = some r ∨ url ∈ urls) :
    cacheMatch (addEach net cache urls) url = some r := by
  induction urls generalizing cache with
  | nil =>
    rcases h with h | h
    · simpa [addEach] using h
    · cases h
  | cons u us ih =>
    rw [addEach_cons]
    apply ih
    by_cases hu : u = url
    · subst hu
      left
      simp [hf, hok, cacheMatch_cachePut_self]
    · rcases h with h | h
      · left
        rcases hfu : fetchUrl net u with _ | r0
        · exact h
        · by_cases hok0 : r0.ok = true
          · simpa [hok0, cacheMatch_cachePut_ne _ _ _ _ (fun hh => hu hh.symm)] using h
          · simpa [hok0] using h
      · rcases List.mem_cons.mp h with h | h
        · exact absurd h.symm hu
        · exact Or.inr h

/-- Whether `addAll` of the whole manifest succeeds or not, the optimized
precache ends in the same state: the static cache extended by a
best-effort add of every manifest URL. -/
theorem precacheCriticalResources_eq (net : Network) (storage : CacheStorage) :
    precacheCriticalResources net storage =
      storageSet storage STATIC_CACHE
        (addEach net (openCache storage STATIC_CACHE) precacheUrls) := by
  unfold precacheCriticalResources cacheAddAll
  by_cases hall : precacheUrls.all (fetchOk net) = true
  · simp [hall]
  · simp [hall]

/-- The network for the C7 counterexample and the C7 witness: every
precache/critical URL except the first one resolves with a 200. -/
def netMostAssets : Network :=
  (CRITICAL_ASSETS.drop 1).map (fun u => (u, mkOk u)) ++
    CULTURAL_IMAGES.map (fun u => (u, mkOk u))

/-- C7 counterexample: in `ravan-fashion-service-worker.js` the install
handler runs a bare `cache.addAll` with no per-URL retry, so with a single
failing manifest URL (the critical stylesheet; every other critical asset
and cultural image fetches fine) the install promise rejects and
installation fails outright. -/
theorem ravanInstall_fails_outright :
    fetchUrl netMostAssets "/assets/ravan-fashion-critical.css" = none ∧
    (CRITICAL_ASSETS.drop 1).all (fetchOk netMostAssets) = true ∧
    CULTURAL_IMAGES.all (fun u => (fetchUrl netMostAssets u).isSome) = true ∧
    ravanInstall netMostAssets [] = none := by
  decide

/-- C7 (amended): the optimized worker's `precacheCriticalResources` does
tolerate per-URL failures — installation always completes, and every
manifest URL whose fetch resolves with an ok response ends up stored in
the precache (static) cache, whatever other URLs fail; the ravan-fashion
worker's install handler, by contrast, fails outright on any failing
critical asset. -/
theorem precache_stores_all_ok_urls (net : Network) (storage : CacheStorage)
    (url : String) (r : Response) (hm : url ∈ precacheUrls)
    (hf : fetchUrl net url = some r) (hok : r.ok = true) :
    lookupStorage (precacheCriticalResources net storage) STATIC_CACHE url = some r := by
  rw [precacheCriticalResources_eq]
  unfold lookupStorage
  rw [openCache_storageSet_self]
  exact addEach_mem_lookup net precacheUrls _ url r hf hok (Or.inr hm)

/-- The network for the C7 witness: every precache URL except the first
resolves with a 200. -/
def netPre : Network := (precacheUrls.drop 1).map (fun u => (u, mkOk u))

/-- Witness for the amended C7: with the first precache URL failing, the
offline page still ends up cached. -/
theorem precache_stores_all_ok_urls_witness :
    fetchUrl netPre "/assets/optimized/ravan-fashion-critical.css" = none ∧
    lookupStorage (precacheCriticalResources netPre []) STATIC_CACHE "/offline.html"
      = some (mkOk "/offline.html") :=
  ⟨by decide,
   precache_stores_all_ok_urls netPre [] "/offline.html" (mkOk "/offline.html")
     (by decide) (by decide) (by decide)⟩

/-! C8 — the message handler. -/

/-- C8 counterexample: a `CACHE_URL` control message that carries no
`data` object makes the handler throw an uncaught TypeError (reading
`data.url` of undefined) — the handler's promise rejects. -/
theorem handleMessage_throws_on_missing_data :
    handleMessage [] []
        { data := some { type := some "CACHE_URL", data := none }, hasPort := false }
      = Except.error () := by
  rfl

/-- C8 (amended): the handler never throws for well-shaped messages —
`SKIP_WAITING` and `SYNC_NOW` always succeed leaving the storage
unchanged, `CACHE_URL` and `CLEAR_CACHE` succeed whenever their `data`
object is present (their per-operation failures are caught inside
`cacheUrl`/`clearCache`), `GET_CACHE_STATS` succeeds whenever a reply port
is present, and an unknown or missing message type is ignored, leaving all
caches unchanged.  It does, however, throw when `event.data` is null, when
`CACHE_URL`/`CLEAR_CACHE` lack their `data` object, or when
`GET_CACHE_STATS` has no reply port. -/
theorem handleMessage_spec (net : Network) (storage : CacheStorage) (ev : MessageEvent) :
    (ev.data = none → handleMessage net storage ev = Except.error ()) ∧
    (∀ md, ev.data = some md → isKnownMessageType md.type = false →
      handleMessage net storage ev = Except.ok storage) ∧
    (∀ md, ev.data = some md →
      md.type = some "SKIP_WAITING" ∨ md.type = some "SYNC_NOW" →
      handleMessage net storage ev = Except.ok storage) ∧
    (∀ md p, ev.data = some md → md.type = some "CACHE_URL" → md.data = some p →
      handleMessage net storage ev = Except.ok (cacheUrl net storage p.url p.cacheName)) ∧
    (∀ md p, ev.data = some md → md.type = some "CLEAR_CACHE" → md.data = some p →
      handleMessage net storage ev = Except.ok (clearCache storage p.cacheName)) ∧
    (∀ md, ev.data = some md → md.type = some "GET_CACHE_STATS" → ev.hasPort = true →
      handleMessage net storage ev = Except.ok storage) ∧
    (∀ md, ev.data = some md → md.type = some "CACHE_URL" ∨ md.type = some "CLEAR_CACHE" →
      md.data = none → handleMessage net storage ev = Except.error ()) ∧
    (∀ md, ev.data = some md → md.type = some "GET_CACHE_STATS" → ev.hasPort = false →
      handleMessage net storage ev = Except.error ()) := by
  refine ⟨?_, ?_, ?_, ?_, ?_, ?_, ?_, ?_⟩
  · intro h
    simp [handleMessage, h]
  · intro md hmd ht
    rcases md with ⟨t, d⟩
    rcases t with _ | t
    · simp [handleMessage, hmd]
    · simp [isKnownMessageType, knownMessageTypes] at ht
      simp [handleMessage, hmd, ht]
  · intro md hmd ht
    rcases ht with ht | ht <;> simp [handleMessage, hmd, ht]
  · intro md p hmd ht hp
    simp [handleMessage, hmd, ht, hp]
  · intro md p hmd ht hp
    simp [handleMessage, hmd, ht, hp]
  · intro md hmd ht hport
    simp [handleMessage, hmd, ht, hport]
  · intro md hmd ht hp
    rcases ht with ht | ht <;> simp [handleMessage, hmd, ht, hp]
  · intro md hmd ht hport
    simp [handleMessage, hmd, ht, hport]

/-- Witness for the amended C8: an unknown message type is ignored — the
handler succeeds and the storage (one cached entry) is unchanged. -/
theorem handleMessage_spec_witness :
    handleMessage [] [(STATIC_CACHE, [("/a", mkOk "/a")])]
        { data := some { type := some "NOT_A_REAL_TYPE", data := none }, hasPort := false }
      = Except.ok [(STATIC_CACHE, [("/a", mkOk "/a")])] :=
  (handleMessage_spec [] [(STATIC_CACHE, [("/a", mkOk "/a")])]
      { data := some { type := some "NOT_A_REAL_TYPE", data := none }, hasPort := false }).2.1
    { type := some "NOT_A_REAL_TYPE", data := none } rfl (by decide)

/-! C10 — only ok responses are ever written to a cache. -/

theorem updateCache_only_ok (net : Network) (storage : CacheStorage) (req : Request)
    (cacheName n u : String) (r : Response)
    (h : lookupStorage (updateCache net storage req cacheName) n u = some r) :
    lookupStorage storage n u = some r ∨ r.ok = true := by
  unfold updateCache at h
  rcases hf : fetchUrl net req.url with _ | r0
  · simp only [hf] at h
    exact Or.inl h
  · simp only [hf] at h
    by_cases hok : r0.ok = true
    · simp only [hok, if_true] at h
      rcases lookupStorage_storagePut_cases _ _ _ _ _ _ _ h with h1 | h1
      · exact Or.inl h1
      · subst h1
        exact Or.inr hok
    · simp only [hok, if_false] at h
      exact Or.inl h

theorem cacheFirst_only_ok (now : Int) (net : Network) (storage : CacheStorage)
    (req : Request) (cacheName n u : String) (r : Response)
    (h : lookupStorage (cacheFirst now net storage req cacheName).storage n u = some r) :
    lookupStorage storage n u = some r ∨ r.ok = true := by
  unfold cacheFirst at h
  rcases hc : cacheMatch (openCache storage cacheName) req.url with _ | cached
  · simp only [hc] at h
    rcases hf : fetchUrl net req.url with _ | network
    · simp only [hf] at h
      exact Or.inl h
    · simp only [hf] at h
      by_cases hok : network.ok = true
      · simp only [hok, if_true] at h
        rcases lookupStorage_storagePut_cases _ _ _ _ _ _ _ h with h1 | h1
        · exact Or.inl h1
        · subst h1
          exact Or.inr hok
      · simp only [hok, if_false] at h
        exact Or.inl h
  · simp only [hc] at h
    by_cases hexp : isCacheExpired now cached = true
    · simp only [hexp, if_true] at h
      exact updateCache_only_ok net storage req cacheName n u r h
    · simp only [hexp, if_false] at h
      exact Or.inl h

theorem networkFirst_only_ok (net : Network) (storage : CacheStorage)
    (req : Request) (cacheName n u : String) (r : Response)
    (h : lookupStorage (networkFirst net storage req cacheName).storage n u = some r) :
    lookupStorage storage n u = some r ∨ r.ok = true := by
  unfold networkFirst at h
  rcases hf : fetchUrl net req.url with _ | network
  · simp only [hf] at h
    rcases hc : cacheMatch (openCache storage cacheName) req.url with _ | c <;>
      simp only [hc] at h <;> exact Or.inl h
  · simp only [hf] at h
    by_cases hok : network.ok = true
    · simp only [hok, if_true] at h
      rcases lookupStorage_storagePut_cases _ _ _ _ _ _ _ h with h1 | h1
      · exact Or.inl h1
      · subst h1
        exact Or.inr hok
    · simp only [hok, if_false] at h
      exact Or.inl h

theorem staleWhileRevalidate_only_ok (net : Network) (storage : CacheStorage)
    (req : Request) (cacheName n u : String) (r : Response)
    (h : lookupStorage (staleWhileRevalidate net storage req cacheName).storage n u = some r) :
    lookupStorage storage n u = some r ∨ r.ok = true := by
  unfold staleWhileRevalidate at h
  rcases hf : fetchUrl net req.url with _ | network
  · rcases hc : cacheMatch (openCache storage cacheName) req.url with _ | c <;>
      simp only [hf, hc] at h <;> exact Or.inl h
  · by_cases hok : network.ok = true
    · rcases hc : cacheMatch (openCache storage cacheName) req.url with _ | c <;>
        simp only [hf, hc, hok, if_true] at h <;>
        · rcases lookupStorage_storagePut_cases _ _ _ _ _ _ _ h with h1 | h1
          · exact Or.inl h1
          · subst h1
            exact Or.inr hok
    · rcases hc : cacheMatch (openCache storage cacheName) req.url with _ | c <;>
        simp only [hf, hc, hok, if_false] at h <;> exact Or.inl h

theorem handleFetch_only_ok (now : Int) (net : Network) (storage : CacheStorage)
    (req : Request) (n u : String) (r : Response)
    (h : lookupStorage (handleFetch now net storage req).storage n u = some r) :
    lookupStorage storage n u = some r ∨ r.ok = true := by
  unfold handleFetch at h
  split at h
  · exact cacheFirst_only_ok now net storage req STATIC_CACHE n u r h
  · split at h
    · exact cacheFirst_only_ok now net storage req IMAGES_CACHE n u r h
    · split at h
      · exact networkFirst_only_ok net storage req API_CACHE n u r h
      · split at h
        · exact staleWhileRevalidate_only_ok net storage req PAGES_CACHE n u r h
        · exact networkFirst_only_ok net storage req RUNTIME_CACHE n u r h

/-- C10: each strategy, the background refresh, and hence the whole fetch
dispatcher, write a fetched response into a cache only when it is ok
(2xx): any response found in any named cache afterwards was either already
there before the request or is ok. -/
theorem strategies_store_only_ok (now : Int) (net : Network) (storage : CacheStorage)
    (req : Request) (cacheName n u : String) (r : Response) :
    (lookupStorage (cacheFirst now net storage req cacheName).storage n u = some r →
      lookupStorage storage n u = some r ∨ r.ok = true) ∧
    (lookupStorage (networkFirst net storage req cacheName).storage n u = some r →
      lookupStorage storage n u = some r ∨ r.ok = true) ∧
    (lookupStorage (staleWhileRevalidate net storage req cacheName).storage n u = some r →
      lookupStorage storage n u = some r ∨ r.ok = true) ∧
    (lookupStorage (updateCache net storage req cacheName) n u = some r →
      lookupStorage storage n u = some r ∨ r.ok = true) ∧
    (lookupStorage (handleFetch now net storage req).storage n u = some r →
      lookupStorage storage n u = some r ∨ r.ok = true) :=
  ⟨cacheFirst_only_ok now net storage req cacheName n u r,
   networkFirst_only_ok net storage req cacheName n u r,
   staleWhileRevalidate_only_ok net storage req cacheName n u r,
   updateCache_only_ok net storage req cacheName n u r,
   handleFetch_only_ok now net storage req n u r⟩

/-- Witness for C10 at a concrete background refresh that stores a 200. -/
theorem strategies_store_only_ok_witness :
    lookupStorage [] RUNTIME_CACHE "/w" = some (mkOk "/w") ∨ (mkOk "/w").ok = true :=
  (strategies_store_only_ok 0 [("/w", mkOk "/w")] []
      { url := "/w", pathname := "/w", queryParams := [], mode := "cors", accept := none }
      RUNTIME_CACHE RUNTIME_CACHE "/w" (mkOk "/w")).2.2.2.1 (by decide)

end SW
